import Mathlib

/-!
Verification development for the pro-ytdl repository: a set of HTTP endpoints
(src/index.py, src/api/index_simple.py, src/api/yt.py) that extract a YouTube
video identifier from a free-form input string and compose a JSON response.

The identifier resolvers are Python functions built on `re.search` with fixed
pattern lists.  We embed the relevant fragment of Python regex semantics
directly: each pattern used by the code has the shape

    (?:optional-prefixes)? (?:marker1|marker2|...) ([a-zA-Z0-9_-]{11})

`re.search` scans candidate start positions left to right; at each position the
backtracking matcher tries the optional-prefix alternatives in backtracking
order (greedy group present before absent, 'https' before 'http'), then the
marker alternatives in order, then requires exactly 11 identifier characters,
which it captures.  That is exactly what `reSearch` below implements, with
`tryCombosAt` the per-position prefix backtracking and `tryMarkersAt` the
marker alternation.  Strings are modelled as `List Char` (Python `str` is a
character sequence; the character class is ASCII-only).
-/

/-- Membership in the Python character class `[a-zA-Z0-9_-]`. -/
def isIdChar (c : Char) : Bool :=
  ('a' ≤ c && c ≤ 'z') || ('A' ≤ c && c ≤ 'Z') || ('0' ≤ c && c ≤ '9') || c == '_' || c == '-'

/-- Literal match of a pattern fragment at the current position
(Python: the regex cursor consuming the literal `p`). -/
def startsWith : List Char → List Char → Bool
  | [], _ => true
  | _ :: _, [] => false
  | p :: ps, c :: cs => p == c && startsWith ps cs

/-- Marker alternation at one position: try each alternative in order; on a
literal match, require and capture exactly 11 identifier characters
(`([a-zA-Z0-9_-]{11})`); otherwise backtrack to the next alternative. -/
def tryMarkersAt (markers : List (List Char)) (s : List Char) : Option (List Char) :=
  match markers with
  | [] => none
  | m :: ms =>
    if startsWith m s then
      let tok := (s.drop m.length).take 11
      if tok.length = 11 && tok.all isIdChar then some tok
      else tryMarkersAt ms s
    else tryMarkersAt ms s

/-- Optional-prefix backtracking at one position: try each prefix alternative
in backtracking order; after consuming a matching prefix, run the marker
alternation; on failure backtrack to the next prefix alternative. -/
def tryCombosAt (combos markers : List (List Char)) (s : List Char) : Option (List Char) :=
  match combos with
  | [] => none
  | c :: cs =>
    if startsWith c s then
      match tryMarkersAt markers (s.drop c.length) with
      | some tok => some tok
      | none => tryCombosAt cs markers s
    else tryCombosAt cs markers s

/-- Python `re.search` for the fixed pattern shape: scan start positions left
to right and return the first capture. -/
def reSearch (combos markers : List (List Char)) (s : List Char) : Option (List Char) :=
  match tryCombosAt combos markers s with
  | some tok => some tok
  | none =>
    match s with
    | [] => none
    | _ :: rest => reSearch combos markers rest

/-- Python `$` (without MULTILINE) also matches just before one trailing
newline, so the anchored bare-identifier pattern ignores a final newline. -/
def stripNl (s : List Char) : List Char :=
  if s.getLast? = some '\n' then s.dropLast else s

/-- The anchored pattern `^([a-zA-Z0-9_-]{11})$`: the whole input (up to a
trailing newline) is exactly 11 identifier characters. -/
def bareId (s : List Char) : Option (List Char) :=
  if (stripNl s).length = 11 && (stripNl s).all isIdChar then some (stripNl s) else none

/-- Expansions of `(?:https?://)?(?:www\.)?` in backtracking order: the outer
optional group is tried present-first with greedy `s?`, then the inner
optional `www\.` present-first. -/
def prefixCombos : List (List Char) :=
  ["https://www.".data, "https://".data, "http://www.".data, "http://".data, "www.".data, []]

/-- JSON values, as produced by the endpoints (numbers modelled as rationals:
Python ints and the rounded floats the code emits are exact decimals). -/
inductive JVal where
  | jstr : String → JVal
  | jnum : ℚ → JVal
  | jbool : Bool → JVal
  | jnull : JVal
  | jarr : List JVal → JVal
  | jobj : List (String × JVal) → JVal

/-- Python `None`-or-string value in a JSON position. -/
def jstrOpt : Option String → JVal
  | none => JVal.jnull
  | some s => JVal.jstr s

/-- Python `None`-or-int value in a JSON position. -/
def jnatOpt : Option Nat → JVal
  | none => JVal.jnull
  | some n => JVal.jnum (n : ℚ)

/-- Python `None`-or-number value in a JSON position. -/
def jnumOpt : Option ℚ → JVal
  | none => JVal.jnull
  | some q => JVal.jnum q

/-- Python `f"{x}"` on an optional string: `None` prints as "None". -/
def pyStrOpt : Option String → String
  | none => "None"
  | some s => s

/-- Round-half-to-even to an integer, the tie-breaking rule of Python's
built-in `round`. -/
def roundHalfEven (q : ℚ) : ℤ :=
  let f := ⌊q⌋
  let r := q - f
  if r < 1/2 then f
  else if r > 1/2 then f + 1
  else if f % 2 = 0 then f else f + 1

/-- Python `round(q, places)` on an exact value: round half to even at the
given decimal place.  (The Python code rounds floats; for the dyadic values
`filesize / 2^20` arising here the float is exact, so the rational model
agrees with it.) -/
def roundTo (places : Nat) (q : ℚ) : ℚ :=
  (roundHalfEven (q * 10 ^ places) : ℚ) / 10 ^ places

/-- The repeated expression `round(stream.filesize / (1024 * 1024), 2) if
stream.filesize else None` (src/index.py lines 152, 182, 324; src/api/yt.py
lines 52, 61).  An absent or zero filesize is falsy in Python, yielding None. -/
def filesize_mb (fs : Option Nat) : Option ℚ :=
  match fs with
  | none => none
  | some n => if n = 0 then none else some (roundTo 2 ((n : ℚ) / (1024 * 1024)))

/-- Python format spec `{k:02d}` for a nonnegative integer: pad the decimal
representation on the left with '0' to width 2. -/
def pyFormat02 (k : Nat) : String :=
  if (toString k).length < 2 then "0" ++ toString k else toString k

/-- The f-string `f"{yt.length // 60}:{yt.length % 60:02d}"` of
src/index.py line 254. -/
def duration_formatted (len : Nat) : String :=
  toString (len / 60) ++ ":" ++ pyFormat02 (len % 60)

/-- Spec-side formulation for comparison: the seconds field zero-padded to
width 2 ("duration formatted as minutes:seconds with seconds zero-padded to
width 2"). -/
def zeroPad2 (k : Nat) : String :=
  String.mk (List.replicate (2 - (toString k).length) '0') ++ toString k

/-- Python `str.lower()` (ASCII case folding; the inputs of interest are
ASCII). -/
def pyLower (s : String) : String := String.mk (s.data.map Char.toLower)

/-- Python `str(e)` for a fastapi/starlette HTTPException: "status: detail". -/
def strHTTPException (status : Nat) (detail : String) : String :=
  toString status ++ ": " ++ detail

namespace Index

/-- Alternatives of the first pattern of src/index.py lines 31-35:
`(?:youtube\.com/watch\?v=|youtu\.be/|youtube\.com/embed/|youtube\.com/v/|youtube\.com/shorts/)`. -/
def urlMarkers : List (List Char) :=
  ["youtube.com/watch?v=".data, "youtu.be/".data, "youtube.com/embed/".data,
   "youtube.com/v/".data, "youtube.com/shorts/".data]

/-- Alternatives of the third pattern of src/index.py line 34:
`(?:v=|v/|vi=|vi/|youtu\.be/|embed/|shorts/)`. -/
def looseMarkers : List (List Char) :=
  ["v=".data, "v/".data, "vi=".data, "vi/".data, "youtu.be/".data, "embed/".data, "shorts/".data]

/-- src/index.py lines 29-41: try the three patterns in order with
`re.search`, returning the first capture, else None. -/
def extract_video_id (url : List Char) : Option (List Char) :=
  match reSearch prefixCombos urlMarkers url with
  | some tok => some tok
  | none =>
    match bareId url with
    | some tok => some tok
    | none => reSearch [[]] looseMarkers url

/-- src/index.py lines 43-48: drop the characters of `<>:"/\|?*` and truncate
to 100 characters. -/
def sanitize_filename (filename : String) : String :=
  String.mk ((filename.data.filter (fun c => !("<>:\"/\\|?*".data.contains c))).take 100)

/-- The pytube stream attributes the handlers read (the stream objects
themselves come from the external pytube library). -/
structure StreamAttrs where
  url : String
  resolution : Option String
  filesize : Option Nat
  mime_type : String
  is_progressive : Bool
  includes_video_track : Bool
  includes_audio_track : Bool
  fps : Option Nat
  bitrate : Option Nat
  abr : Option String
  itag : Nat

/-- The pytube video attributes read by the /api/yt handler. -/
structure YtMeta where
  title : String
  thumbnail_url : String
  length : Nat
  author : String
  views : Nat
  publish_date : Option String
  keywords : List String
  description : String

/-- The pytube video attributes read by the /api/info handler. -/
structure InfoMeta where
  title : String
  length : Nat
  author : String
  channel_url : String
  views : Nat
  publish_date : Option String
  description : String
  keywords : List String
  thumbnail_url : String
  age_restricted : Bool
  captionTracks : List (String × String)

/-- Outcome of the delegated pytube interaction inside the /api/yt try block:
either the video loads (with the streams that the delegated quality selection
of lines 128-145 and 167-175 picks out, and the full stream list), or one of
the exceptions handled at lines 212-219 is raised. -/
inductive PytubeOutcome where
  | ok (meta : YtMeta) (videoStream audioStream : Option StreamAttrs)
      (allStreams : List StreamAttrs)
  | ageRestricted
  | videoUnavailable
  | pytubeError (msg : String)
  | otherError (msg : String)

/-- Result of a FastAPI request handler: a JSON payload (HTTP 200), a
RedirectResponse, or an HTTPException with a status code and detail. -/
inductive DlResult where
  | json : List (String × JVal) → DlResult
  | redirect : String → DlResult
  | httpError : Nat → String → DlResult

/-- Whether the handler produced a redirect. -/
def DlResult.isRedirect : DlResult → Bool
  | .redirect _ => true
  | _ => false

/-- Whether the handler produced a JSON payload. -/
def DlResult.isJson : DlResult → Bool
  | .json _ => true
  | _ => false

/-- Field access on a JSON result (none for non-JSON results and for absent
keys). -/
def DlResult.field : DlResult → String → Option JVal
  | .json p, k => p.lookup k
  | .redirect _, _ => none
  | .httpError _ _, _ => none

/-- FastAPI's rendering: a returned dict becomes a 200 JSON response; an
HTTPException with status s and detail d becomes a status-s response with
body {"detail": d}; a RedirectResponse defaults to status 307. -/
def DlResult.toResponse : DlResult → Nat × List (String × JVal)
  | .json p => (200, p)
  | .redirect _ => (307, [])
  | .httpError s d => (s, [("detail", JVal.jstr d)])

/-- Detail string of the HTTPException raised at src/index.py line 91. -/
def invalidUrlMsg : String :=
  "Invalid YouTube URL. Please provide a valid YouTube URL or Video ID"

/-- The video stream dict of src/index.py lines 148-157. -/
def videoStreamInfo (safe_title : String) (v : StreamAttrs) : JVal :=
  JVal.jobj [
    ("url", JVal.jstr v.url),
    ("quality", jstrOpt v.resolution),
    ("filesize", jnatOpt v.filesize),
    ("filesize_mb", jnumOpt (filesize_mb v.filesize)),
    ("mime_type", JVal.jstr v.mime_type),
    ("type", JVal.jstr (if v.is_progressive then "progressive" else "adaptive")),
    ("fps", jnatOpt v.fps),
    ("download_filename", JVal.jstr (safe_title ++ "_" ++ pyStrOpt v.resolution ++ ".mp4"))]

/-- The audio stream dict of src/index.py lines 178-185. -/
def audioStreamInfo (safe_title : String) (a : StreamAttrs) : JVal :=
  JVal.jobj [
    ("url", JVal.jstr a.url),
    ("bitrate", jstrOpt a.abr),
    ("filesize", jnatOpt a.filesize),
    ("filesize_mb", jnumOpt (filesize_mb a.filesize)),
    ("mime_type", JVal.jstr a.mime_type),
    ("download_filename", JVal.jstr (safe_title ++ "_audio.mp3"))]

/-- One entry of the available_formats list of src/index.py lines 196-205. -/
def formatInfo (st : StreamAttrs) : JVal :=
  JVal.jobj [
    ("itag", JVal.jnum (st.itag : ℚ)),
    ("mime_type", JVal.jstr st.mime_type),
    ("resolution", jstrOpt st.resolution),
    ("fps", jnatOpt st.fps),
    ("bitrate", jnatOpt st.bitrate),
    ("type", JVal.jstr (if st.is_progressive then "video+audio"
      else if st.includes_video_track then "video" else "audio"))]

/-- The base response dict of src/index.py lines 107-122, with the data dict
passed in (the Python code mutates response["data"] in place; insertion
position is unchanged by the mutation). -/
def baseResponse (processing_time : ℚ) (meta : YtMeta) (vid : List Char)
    (data : List (String × JVal)) : List (String × JVal) :=
  [("success", JVal.jbool true),
   ("api_dev", JVal.jstr "@YourName"),
   ("api_channel", JVal.jstr "@YourChannel"),
   ("time_s", JVal.jnum processing_time),
   ("title", JVal.jstr meta.title),
   ("video_id", JVal.jstr (String.mk vid)),
   ("thumbnail", JVal.jstr meta.thumbnail_url),
   ("duration", JVal.jnum (meta.length : ℚ)),
   ("author", JVal.jstr meta.author),
   ("views", JVal.jnum (meta.views : ℚ)),
   ("publish_date", jstrOpt meta.publish_date),
   ("keywords", JVal.jarr (meta.keywords.map JVal.jstr)),
   ("description", JVal.jstr (if meta.description.length > 300
      then meta.description.take 300 ++ "..." else meta.description)),
   ("data", JVal.jobj data)]

/-- src/index.py lines 74-219, the /api/yt handler.  Inputs beyond the query
parameters: `start` and `now` are the wall-clock samples taken by
`time.time()` at lines 85 and 104; `outcome` is the result of the delegated
pytube interaction (the `quality` parameter only influences that delegated
stream selection, so it does not appear separately).  Control flow modelled
exactly, including that the HTTPException(400) raised at line 91 inside the
try block is caught by the catch-all `except Exception` at line 218 and
re-raised as a 500 whose detail wraps `str(e)`. -/
def download_youtube (url : List Char) (type : String) (download : Bool)
    (start now : ℚ) (outcome : PytubeOutcome) : DlResult :=
  match extract_video_id url with
  | none => DlResult.httpError 500 ("Server error: " ++ strHTTPException 400 invalidUrlMsg)
  | some vid =>
    match outcome with
    | .ageRestricted =>
        DlResult.httpError 403 "This video is age restricted and cannot be downloaded"
    | .videoUnavailable => DlResult.httpError 404 "Video is unavailable or private"
    | .pytubeError m => DlResult.httpError 500 ("YouTube API error: " ++ m)
    | .otherError m => DlResult.httpError 500 ("Server error: " ++ m)
    | .ok meta vstream astream allStreams =>
      let safe_title := sanitize_filename meta.title
      let processing_time := roundTo 4 (now - start)
      let t := pyLower type
      let vsel := if t == "video" || t == "both" then vstream else none
      let asel := if t == "audio" || t == "both" then astream else none
      match vsel, download && (t == "video") with
      | some v, true => DlResult.redirect v.url
      | vdone, _ =>
        match asel, download && (t == "audio") with
        | some a, true => DlResult.redirect a.url
        | adone, _ =>
          let data : List (String × JVal) :=
            (match vdone with
             | some v => [("video", videoStreamInfo safe_title v)]
             | none => []) ++
            (match adone with
             | some a => [("audio", audioStreamInfo safe_title a)]
             | none => [])
          let resp := baseResponse processing_time meta vid data
          DlResult.json (if data.isEmpty
            then resp ++
              [("available_formats", JVal.jarr (allStreams.map formatInfo)),
               ("note", JVal.jstr
                 "No direct stream found for requested quality. Check available formats.")]
            else resp)

/-- The captions dict of src/index.py lines 235-246 (on any exception the
dict is left empty, which is the empty track list). -/
def captionsObj (vid : List Char) (tracks : List (String × String)) : JVal :=
  JVal.jobj (tracks.map (fun track =>
    (track.1, JVal.jobj [
      ("name", JVal.jstr track.2),
      ("language", JVal.jstr track.2),
      ("code", JVal.jstr track.1),
      ("url", JVal.jstr ("/api/caption/" ++ String.mk vid ++ "?lang=" ++ track.1))])))

/-- src/index.py lines 221-274, the /api/info handler.  `res` is the result
of the delegated pytube interaction; any exception becomes a 500 whose detail
is `str(e)` (line 274), which for the HTTPException(400) raised at line 229
on an unresolvable URL yields a 500 with detail "400: Invalid YouTube URL". -/
def video_info (url : List Char) (start now : ℚ) (res : Except String InfoMeta) : DlResult :=
  match extract_video_id url with
  | none => DlResult.httpError 500 (strHTTPException 400 "Invalid YouTube URL")
  | some vid =>
    match res with
    | .error m => DlResult.httpError 500 m
    | .ok meta =>
      DlResult.json [
        ("success", JVal.jbool true),
        ("time_s", JVal.jnum (roundTo 4 (now - start))),
        ("video_id", JVal.jstr (String.mk vid)),
        ("title", JVal.jstr meta.title),
        ("duration_seconds", JVal.jnum (meta.length : ℚ)),
        ("duration_formatted", JVal.jstr (duration_formatted meta.length)),
        ("author", JVal.jstr meta.author),
        ("channel_url", JVal.jstr meta.channel_url),
        ("views", JVal.jnum (meta.views : ℚ)),
        ("publish_date", jstrOpt meta.publish_date),
        ("description", JVal.jstr meta.description),
        ("keywords", JVal.jarr (meta.keywords.map JVal.jstr)),
        ("thumbnail", JVal.jstr meta.thumbnail_url),
        ("age_restricted", JVal.jbool meta.age_restricted),
        ("captions", captionsObj vid meta.captionTracks),
        ("metadata", JVal.jobj [
          ("video_id", JVal.jstr (String.mk vid)),
          ("url", JVal.jstr ("https://www.youtube.com/watch?v=" ++ String.mk vid)),
          ("embed_url", JVal.jstr ("https://www.youtube.com/embed/" ++ String.mk vid))])]

end Index

namespace ApiIndexSimple

/-- Alternatives of the first pattern of src/api/index_simple.py line 9:
`(?:youtu\.be/|youtube\.com/watch\?v=)`. -/
def urlMarkers : List (List Char) :=
  ["youtu.be/".data, "youtube.com/watch?v=".data]

/-- src/api/index_simple.py lines 7-16 (no optional prefix group in the URL
pattern, so the prefix-combo list is just the empty combo). -/
def extract_video_id (url : List Char) : Option (List Char) :=
  match reSearch [[]] urlMarkers url with
  | some tok => some tok
  | none => bareId url

/-- src/api/index_simple.py lines 18-42, the /api/yt handler: a plain dict is
always returned (FastAPI renders it as HTTP 200), with the body
{"error": "Invalid URL"} when the resolver fails, else the fixed demo
payload with the hardcoded time_s value 1.5. -/
def yt_download (url : List Char) : Nat × List (String × JVal) :=
  match extract_video_id url with
  | none => (200, [("error", JVal.jstr "Invalid URL")])
  | some vid =>
    (200,
     [("api_dev", JVal.jstr "@masumvai"),
      ("api_channel", JVal.jstr "@Masum_Tech_Sensei"),
      ("time_s", JVal.jnum (3/2)),
      ("title", JVal.jstr ("Video " ++ String.mk vid)),
      ("video_id", JVal.jstr (String.mk vid)),
      ("data", JVal.jobj [
        ("video", JVal.jstr ("https://dl.ymcdn.org/04caafe31b0869a0601e4912f5170a6d/" ++ String.mk vid)),
        ("audio", JVal.jstr ("https://dl.ymcdn.org/8ce857f5628c8c6d3fdde2a01f30e01b/" ++ String.mk vid))]),
      ("note", JVal.jstr "This is a demo response. For real download, use external services."),
      ("external_services", JVal.jarr [
        JVal.jstr ("https://yt1s.com/youtube-to-mp4/" ++ String.mk vid),
        JVal.jstr ("https://ssyoutube.com/watch?v=" ++ String.mk vid),
        JVal.jstr ("https://yt5s.com/en/?q=https://youtube.com/watch?v=" ++ String.mk vid)])])

end ApiIndexSimple

namespace ApiYt

/-- Alternatives of the first pattern of src/api/yt.py line 11:
`(?:youtube\.com/watch\?v=|youtu\.be/|youtube\.com/embed/)`. -/
def urlMarkers : List (List Char) :=
  ["youtube.com/watch?v=".data, "youtu.be/".data, "youtube.com/embed/".data]

/-- src/api/yt.py lines 9-19 (same optional prefix group as src/index.py's
first pattern). -/
def extract_video_id (url : List Char) : Option (List Char) :=
  match reSearch prefixCombos urlMarkers url with
  | some tok => some tok
  | none => bareId url

end ApiYt

/-! Engine lemmas. -/

theorem take_append_of_len {t : List Char} (rest : List Char) (h : t.length = 11) :
    (t ++ rest).take 11 = t := by
  rw [List.take_append_of_le_length (by omega)]
  exact List.take_of_length_le (by omega)

theorem startsWith_all_of {p s : List Char} {f : Char → Bool}
    (h : startsWith p s = true) (hs : s.all f = true) : p.all f = true := by
  induction p generalizing s with
  | nil => rfl
  | cons a as ih =>
    cases s with
    | nil => simp [startsWith] at h
    | cons b bs =>
      simp [startsWith] at h
      simp only [List.all_cons, Bool.and_eq_true] at hs ⊢
      exact ⟨h.1 ▸ hs.1, ih h.2 hs.2⟩

theorem all_drop {s : List Char} {f : Char → Bool} (n : Nat) (hs : s.all f = true) :
    (s.drop n).all f = true :=
  List.all_eq_true.mpr fun x hx => List.all_eq_true.mp hs x (List.drop_subset n s hx)

theorem tryMarkersAt_none_of_id {ms : List (List Char)} {s : List Char}
    (hm : ∀ m ∈ ms, m.all isIdChar = false) (hs : s.all isIdChar = true) :
    tryMarkersAt ms s = none := by
  induction ms with
  | nil => rfl
  | cons m rest ih =>
    have hmf : m.all isIdChar = false := hm m (by simp)
    have : startsWith m s = false := by
      by_contra hc
      rw [Bool.not_eq_false] at hc
      rw [startsWith_all_of hc hs] at hmf
      cases hmf
    simp [tryMarkersAt, this]
    exact ih fun x hx => hm x (by simp [hx])

theorem tryCombosAt_none_of_id {cs ms : List (List Char)} {s : List Char}
    (hm : ∀ m ∈ ms, m.all isIdChar = false) (hs : s.all isIdChar = true) :
    tryCombosAt cs ms s = none := by
  induction cs with
  | nil => rfl
  | cons c rest ih =>
    simp only [tryCombosAt]
    rw [tryMarkersAt_none_of_id hm (all_drop c.length hs)]
    split <;> simp [ih]

theorem reSearch_none_of_id {cs ms : List (List Char)} {s : List Char}
    (hm : ∀ m ∈ ms, m.all isIdChar = false) (hs : s.all isIdChar = true) :
    reSearch cs ms s = none := by
  induction s with
  | nil => simp [reSearch, tryCombosAt_none_of_id hm hs]
  | cons a as ih =>
    rw [reSearch, tryCombosAt_none_of_id hm hs]
    exact ih (by simp only [List.all_cons, Bool.and_eq_true] at hs; exact hs.2)

theorem startsWith_length {p s : List Char} (h : startsWith p s = true) :
    p.length ≤ s.length := by
  induction p generalizing s with
  | nil => simp
  | cons a as ih =>
    cases s with
    | nil => simp [startsWith] at h
    | cons b bs =>
      simp [startsWith] at h
      simpa using ih h.2

theorem tryMarkersAt_some_bound {ms : List (List Char)} {s tok : List Char}
    (h : tryMarkersAt ms s = some tok) : ∃ m ∈ ms, m.length + 11 ≤ s.length := by
  induction ms with
  | nil => simp [tryMarkersAt] at h
  | cons m rest ih =>
    simp only [tryMarkersAt] at h
    split at h
    · split at h
      · rename_i hsw hcheck
        refine ⟨m, by simp, ?_⟩
        simp only [Bool.and_eq_true, decide_eq_true_eq] at hcheck
        have h1 : ((s.drop m.length).take 11).length = 11 := hcheck.1
        have h2 := startsWith_length hsw
        rw [List.length_take, List.length_drop] at h1
        omega
      · obtain ⟨m', hm', hb⟩ := ih h
        exact ⟨m', by simp [hm'], hb⟩
    · obtain ⟨m', hm', hb⟩ := ih h
      exact ⟨m', by simp [hm'], hb⟩

theorem tryMarkersAt_some_props {ms : List (List Char)} {s tok : List Char}
    (h : tryMarkersAt ms s = some tok) : tok.length = 11 ∧ tok.all isIdChar = true := by
  induction ms with
  | nil => simp [tryMarkersAt] at h
  | cons m rest ih =>
    simp only [tryMarkersAt] at h
    split at h
    · split at h
      · rename_i hcheck
        simp only [Bool.and_eq_true, decide_eq_true_eq] at hcheck
        cases h
        exact ⟨hcheck.1, hcheck.2⟩
      · exact ih h
    · exact ih h

theorem tryCombosAt_some_bound {cs ms : List (List Char)} {s tok : List Char}
    (h : tryCombosAt cs ms s = some tok) : ∃ m ∈ ms, m.length + 11 ≤ s.length := by
  induction cs with
  | nil => simp [tryCombosAt] at h
  | cons c rest ih =>
    simp only [tryCombosAt] at h
    split at h
    · split at h
      · rename_i htm
        cases h
        obtain ⟨m, hm, hb⟩ := tryMarkersAt_some_bound htm
        have := List.length_drop c.length s
        exact ⟨m, hm, by omega⟩
      · exact ih h
    · exact ih h

theorem tryCombosAt_some_props {cs ms : List (List Char)} {s tok : List Char}
    (h : tryCombosAt cs ms s = some tok) : tok.length = 11 ∧ tok.all isIdChar = true := by
  induction cs with
  | nil => simp [tryCombosAt] at h
  | cons c rest ih =>
    simp only [tryCombosAt] at h
    split at h
    · split at h
      · rename_i htm
        cases h
        exact tryMarkersAt_some_props htm
      · exact ih h
    · exact ih h

theorem reSearch_some_bound {cs ms : List (List Char)} {s tok : List Char}
    (h : reSearch cs ms s = some tok) : ∃ m ∈ ms, m.length + 11 ≤ s.length := by
  induction s with
  | nil =>
    rw [reSearch] at h
    split at h
    · rename_i htc; cases h; exact tryCombosAt_some_bound htc
    · cases h
  | cons a as ih =>
    rw [reSearch] at h
    split at h
    · rename_i htc; cases h; exact tryCombosAt_some_bound htc
    · obtain ⟨m, hm, hb⟩ := ih h
      exact ⟨m, hm, by simp; omega⟩

theorem reSearch_some_props {cs ms : List (List Char)} {s tok : List Char}
    (h : reSearch cs ms s = some tok) : tok.length = 11 ∧ tok.all isIdChar = true := by
  induction s with
  | nil =>
    rw [reSearch] at h
    split at h
    · rename_i htc; cases h; exact tryCombosAt_some_props htc
    · cases h
  | cons a as ih =>
    rw [reSearch] at h
    split at h
    · rename_i htc; cases h; exact tryCombosAt_some_props htc
    · exact ih h

theorem getLast?_mem' {s : List Char} {c : Char} (h : s.getLast? = some c) : c ∈ s := by
  obtain ⟨hne, heq⟩ := List.mem_getLast?_eq_getLast (Option.mem_def.mpr h)
  exact heq ▸ List.getLast_mem hne

theorem bareId_of_id {t : List Char} (h11 : t.length = 11) (ha : t.all isIdChar = true) :
    bareId t = some t := by
  have hnl : t.getLast? ≠ some '\n' := by
    intro hc
    have := List.all_eq_true.mp ha _ (getLast?_mem' hc)
    simp [isIdChar] at this
  simp [bareId, stripNl, hnl, h11, ha]

theorem bareId_some_props {s t : List Char} (h : bareId s = some t) :
    t.length = 11 ∧ t.all isIdChar = true := by
  rw [bareId] at h
  split at h
  · rename_i hc
    simp only [Bool.and_eq_true, decide_eq_true_eq] at hc
    cases h
    exact hc
  · cases h

/-! Per-resolver lemmas: recognized URL forms (for an arbitrary 11-character
identifier token and an arbitrary trailing suffix) and behaviour on bare
identifier tokens. -/

theorem index_youtuBe_form (t rest : List Char) (h11 : t.length = 11)
    (ha : t.all isIdChar = true) :
    Index.extract_video_id ("https://youtu.be/".data ++ (t ++ rest)) = some t := by
  have ht : (t ++ rest).take 11 = t := take_append_of_len rest h11
  simp [Index.extract_video_id, Index.urlMarkers, prefixCombos,
    reSearch, tryCombosAt, tryMarkersAt, startsWith, ht, h11, ha]

theorem index_watch_form (t rest : List Char) (h11 : t.length = 11)
    (ha : t.all isIdChar = true) :
    Index.extract_video_id ("https://www.youtube.com/watch?v=".data ++ (t ++ rest)) = some t := by
  have ht : (t ++ rest).take 11 = t := take_append_of_len rest h11
  simp [Index.extract_video_id, Index.urlMarkers, prefixCombos,
    reSearch, tryCombosAt, tryMarkersAt, startsWith, ht, h11, ha]

theorem index_shorts_form (t rest : List Char) (h11 : t.length = 11)
    (ha : t.all isIdChar = true) :
    Index.extract_video_id ("https://www.youtube.com/shorts/".data ++ (t ++ rest)) = some t := by
  have ht : (t ++ rest).take 11 = t := take_append_of_len rest h11
  simp [Index.extract_video_id, Index.urlMarkers, prefixCombos,
    reSearch, tryCombosAt, tryMarkersAt, startsWith, ht, h11, ha]

theorem index_bare_form (t : List Char) (h11 : t.length = 11)
    (ha : t.all isIdChar = true) :
    Index.extract_video_id t = some t := by
  have hm : ∀ m ∈ Index.urlMarkers, m.all isIdChar = false := by decide
  rw [Index.extract_video_id, reSearch_none_of_id hm ha, bareId_of_id h11 ha]

theorem simple_youtuBe_form (t rest : List Char) (h11 : t.length = 11)
    (ha : t.all isIdChar = true) :
    ApiIndexSimple.extract_video_id ("https://youtu.be/".data ++ (t ++ rest)) = some t := by
  have ht : (t ++ rest).take 11 = t := take_append_of_len rest h11
  simp [ApiIndexSimple.extract_video_id, ApiIndexSimple.urlMarkers,
    reSearch, tryCombosAt, tryMarkersAt, startsWith, ht, h11, ha]

theorem simple_watch_form (t rest : List Char) (h11 : t.length = 11)
    (ha : t.all isIdChar = true) :
    ApiIndexSimple.extract_video_id ("https://www.youtube.com/watch?v=".data ++ (t ++ rest)) =
      some t := by
  have ht : (t ++ rest).take 11 = t := take_append_of_len rest h11
  simp [ApiIndexSimple.extract_video_id, ApiIndexSimple.urlMarkers,
    reSearch, tryCombosAt, tryMarkersAt, startsWith, ht, h11, ha]

theorem simple_bare_form (t : List Char) (h11 : t.length = 11)
    (ha : t.all isIdChar = true) :
    ApiIndexSimple.extract_video_id t = some t := by
  have hm : ∀ m ∈ ApiIndexSimple.urlMarkers, m.all isIdChar = false := by decide
  rw [ApiIndexSimple.extract_video_id, reSearch_none_of_id hm ha, bareId_of_id h11 ha]

theorem yt_youtuBe_form (t rest : List Char) (h11 : t.length = 11)
    (ha : t.all isIdChar = true) :
    ApiYt.extract_video_id ("https://youtu.be/".data ++ (t ++ rest)) = some t := by
  have ht : (t ++ rest).take 11 = t := take_append_of_len rest h11
  simp [ApiYt.extract_video_id, ApiYt.urlMarkers, prefixCombos,
    reSearch, tryCombosAt, tryMarkersAt, startsWith, ht, h11, ha]

theorem yt_watch_form (t rest : List Char) (h11 : t.length = 11)
    (ha : t.all isIdChar = true) :
    ApiYt.extract_video_id ("https://www.youtube.com/watch?v=".data ++ (t ++ rest)) = some t := by
  have ht : (t ++ rest).take 11 = t := take_append_of_len rest h11
  simp [ApiYt.extract_video_id, ApiYt.urlMarkers, prefixCombos,
    reSearch, tryCombosAt, tryMarkersAt, startsWith, ht, h11, ha]

theorem yt_bare_form (t : List Char) (h11 : t.length = 11)
    (ha : t.all isIdChar = true) :
    ApiYt.extract_video_id t = some t := by
  have hm : ∀ m ∈ ApiYt.urlMarkers, m.all isIdChar = false := by decide
  rw [ApiYt.extract_video_id, reSearch_none_of_id hm ha, bareId_of_id h11 ha]

theorem index_extract_some_props {url t : List Char}
    (h : Index.extract_video_id url = some t) : t.length = 11 ∧ t.all isIdChar = true := by
  rw [Index.extract_video_id] at h
  cases h1 : reSearch prefixCombos Index.urlMarkers url with
  | some tok => rw [h1] at h; cases h; exact reSearch_some_props h1
  | none =>
    rw [h1] at h
    cases h2 : bareId url with
    | some tok => rw [h2] at h; cases h; exact bareId_some_props h2
    | none => rw [h2] at h; exact reSearch_some_props h

theorem yt_extract_some_props {url t : List Char}
    (h : ApiYt.extract_video_id url = some t) : t.length = 11 ∧ t.all isIdChar = true := by
  rw [ApiYt.extract_video_id] at h
  cases h1 : reSearch prefixCombos ApiYt.urlMarkers url with
  | some tok => rw [h1] at h; cases h; exact reSearch_some_props h1
  | none => rw [h1] at h; exact bareId_some_props h

theorem index_extract_len10 (s : List Char) (h : s.length = 10) :
    Index.extract_video_id s = none := by
  rw [Index.extract_video_id]
  have h1 : reSearch prefixCombos Index.urlMarkers s = none := by
    cases hs : reSearch prefixCombos Index.urlMarkers s with
    | none => rfl
    | some tok =>
      obtain ⟨m, hm, hb⟩ := reSearch_some_bound hs
      have : 9 ≤ m.length := by fin_cases hm <;> decide
      omega
  have h2 : bareId s = none := by
    rw [bareId, stripNl]
    by_cases hnl : s.getLast? = some '\n'
    · have hd : s.dropLast.length = 9 := by rw [List.length_dropLast, h]
      simp [hnl, hd]
    · simp [hnl, h]
  rw [h1, h2]
  cases hs : reSearch [[]] Index.looseMarkers s with
  | none => rfl
  | some tok =>
    obtain ⟨m, hm, hb⟩ := reSearch_some_bound hs
    have : 2 ≤ m.length := by fin_cases hm <;> decide
    omega

theorem simple_extract_len10 (s : List Char) (h : s.length = 10) :
    ApiIndexSimple.extract_video_id s = none := by
  rw [ApiIndexSimple.extract_video_id]
  have h1 : reSearch [[]] ApiIndexSimple.urlMarkers s = none := by
    cases hs : reSearch [[]] ApiIndexSimple.urlMarkers s with
    | none => rfl
    | some tok =>
      obtain ⟨m, hm, hb⟩ := reSearch_some_bound hs
      have : 9 ≤ m.length := by fin_cases hm <;> decide
      omega
  have h2 : bareId s = none := by
    rw [bareId, stripNl]
    by_cases hnl : s.getLast? = some '\n'
    · have hd : s.dropLast.length = 9 := by rw [List.length_dropLast, h]
      simp [hnl, hd]
    · simp [hnl, h]
  rw [h1, h2]

/-! Claim theorems. -/

/-- Claim C1, counterexample: the claim asserts that extract_video_id — as
implemented in all three cited files — maps a shorts URL to its token, but
the reduced pattern lists of src/api/index_simple.py and src/api/yt.py do not
recognize the shorts form: both resolvers return None on a concrete shorts
URL carrying a valid 11-character token. -/
theorem C1_counterexample :
    ApiIndexSimple.extract_video_id "https://www.youtube.com/shorts/dQw4w9WgXcQ".data = none
  ∧ ApiYt.extract_video_id "https://www.youtube.com/shorts/dQw4w9WgXcQ".data = none :=
  ⟨by decide, by decide⟩

/-- Claim C1 (amended): for every 11-character token t over [A-Za-z0-9_-] and
any trailing suffix (covering extra query parameters), src/index.py's
extract_video_id returns exactly t on the youtu.be, watch?v=, and shorts URL
forms and on the bare token; the reduced resolvers of
src/api/index_simple.py and src/api/yt.py do so on the youtu.be and watch?v=
forms and on the bare token, but do not recognize the shorts form. -/
theorem C1_amended (t rest : List Char) (h11 : t.length = 11) (ha : t.all isIdChar = true) :
    (Index.extract_video_id ("https://youtu.be/".data ++ (t ++ rest)) = some t
   ∧ Index.extract_video_id ("https://www.youtube.com/watch?v=".data ++ (t ++ rest)) = some t
   ∧ Index.extract_video_id ("https://www.youtube.com/shorts/".data ++ (t ++ rest)) = some t
   ∧ Index.extract_video_id t = some t)
  ∧ (ApiIndexSimple.extract_video_id ("https://youtu.be/".data ++ (t ++ rest)) = some t
   ∧ ApiIndexSimple.extract_video_id ("https://www.youtube.com/watch?v=".data ++ (t ++ rest)) =
       some t
   ∧ ApiIndexSimple.extract_video_id t = some t)
  ∧ (ApiYt.extract_video_id ("https://youtu.be/".data ++ (t ++ rest)) = some t
   ∧ ApiYt.extract_video_id ("https://www.youtube.com/watch?v=".data ++ (t ++ rest)) = some t
   ∧ ApiYt.extract_video_id t = some t) :=
  ⟨⟨index_youtuBe_form t rest h11 ha, index_watch_form t rest h11 ha,
    index_shorts_form t rest h11 ha, index_bare_form t h11 ha⟩,
   ⟨simple_youtuBe_form t rest h11 ha, simple_watch_form t rest h11 ha,
    simple_bare_form t h11 ha⟩,
   ⟨yt_youtuBe_form t rest h11 ha, yt_watch_form t rest h11 ha,
    yt_bare_form t h11 ha⟩⟩

/-- Claim C1, witness: the amended theorem applied to the token dQw4w9WgXcQ
with trailing query parameters. -/
theorem C1_witness :
    ("dQw4w9WgXcQ".data.length = 11 ∧ "dQw4w9WgXcQ".data.all isIdChar = true)
  ∧ Index.extract_video_id
      ("https://youtu.be/".data ++ ("dQw4w9WgXcQ".data ++ "&t=43".data)) =
      some "dQw4w9WgXcQ".data :=
  ⟨⟨by decide, by decide⟩,
   (C1_amended "dQw4w9WgXcQ".data "&t=43".data (by decide) (by decide)).1.1⟩

/-- Claim C2, bug evaluation: on an unresolvable url the /api/yt handler of
src/index.py raises HTTPException(400) inside its try block, the catch-all
except at line 218 catches that very exception, and the response is a 500
whose FastAPI-rendered body keys the message under "detail" — not the
claimed 400 with an "error" body.  The handler of src/api/index_simple.py
returns its {"error": ...} dict with HTTP status 200, not 400. -/
theorem C2_bug_eval :
    Index.download_youtube "x".data "both" false 0 0 Index.PytubeOutcome.ageRestricted =
      Index.DlResult.httpError 500
        "Server error: 400: Invalid YouTube URL. Please provide a valid YouTube URL or Video ID"
  ∧ (Index.download_youtube "x".data "both" false 0 0
       Index.PytubeOutcome.ageRestricted).toResponse =
      (500, [("detail", JVal.jstr
        "Server error: 400: Invalid YouTube URL. Please provide a valid YouTube URL or Video ID")])
  ∧ ApiIndexSimple.yt_download "x".data = (200, [("error", JVal.jstr "Invalid URL")]) :=
  ⟨rfl, rfl, rfl⟩

/-- Claim C3, counterexample: the claim asserts the metadata fetch step never
surfaces an error except on metadata-purpose endpoints, but on the /api/yt
download endpoint of src/index.py a metadata retrieval failure (pytube's
VideoUnavailable) surfaces as an HTTP 404 error response instead of degrading
to placeholder metadata. -/
theorem C3_counterexample :
    Index.download_youtube "dQw4w9WgXcQ".data "both" false 0 0
      Index.PytubeOutcome.videoUnavailable =
      Index.DlResult.httpError 404 "Video is unavailable or private" := rfl

/-- Claim C3 (amended): in src/index.py a failure of the delegated metadata
retrieval surfaces as an HTTP error on every endpoint, download endpoints
included (403 for age-restricted, 404 for unavailable, 500 for other pytube
or unexpected errors), and on the metadata endpoint /api/info as a 500
carrying the error detail; only src/api/index_simple.py's endpoint never
surfaces a retrieval error — it performs no retrieval at all and always
returns fabricated placeholder data derived from the identifier (no
retrievalSucceeded marker exists anywhere). -/
theorem C3_amended (url vid : List Char) (type : String) (download : Bool)
    (start now : ℚ) (m : String)
    (h : Index.extract_video_id url = some vid)
    (hs : ApiIndexSimple.extract_video_id url = some vid) :
    (Index.download_youtube url type download start now Index.PytubeOutcome.ageRestricted =
       Index.DlResult.httpError 403 "This video is age restricted and cannot be downloaded")
  ∧ (Index.download_youtube url type download start now Index.PytubeOutcome.videoUnavailable =
       Index.DlResult.httpError 404 "Video is unavailable or private")
  ∧ (Index.download_youtube url type download start now (Index.PytubeOutcome.pytubeError m) =
       Index.DlResult.httpError 500 ("YouTube API error: " ++ m))
  ∧ (Index.download_youtube url type download start now (Index.PytubeOutcome.otherError m) =
       Index.DlResult.httpError 500 ("Server error: " ++ m))
  ∧ (Index.video_info url start now (Except.error m) = Index.DlResult.httpError 500 m)
  ∧ ((ApiIndexSimple.yt_download url).1 = 200
   ∧ (ApiIndexSimple.yt_download url).2.lookup "title" =
       some (JVal.jstr ("Video " ++ String.mk vid))
   ∧ (ApiIndexSimple.yt_download url).2.lookup "error" = none) := by
  refine ⟨?_, ?_, ?_, ?_, ?_, ?_, ?_, ?_⟩
  · simp [Index.download_youtube, h]
  · simp [Index.download_youtube, h]
  · simp [Index.download_youtube, h]
  · simp [Index.download_youtube, h]
  · simp [Index.video_info, h]
  · simp [ApiIndexSimple.yt_download, hs]
  · simp [ApiIndexSimple.yt_download, hs, List.lookup]
  · simp [ApiIndexSimple.yt_download, hs, List.lookup]

/-- Claim C3, witness: the amended theorem applied to a youtu.be URL that
both resolvers resolve. -/
theorem C3_witness :
    (Index.extract_video_id "https://youtu.be/dQw4w9WgXcQ".data = some "dQw4w9WgXcQ".data
   ∧ ApiIndexSimple.extract_video_id "https://youtu.be/dQw4w9WgXcQ".data =
       some "dQw4w9WgXcQ".data)
  ∧ Index.download_youtube "https://youtu.be/dQw4w9WgXcQ".data "both" false 0 0
      Index.PytubeOutcome.videoUnavailable =
      Index.DlResult.httpError 404 "Video is unavailable or private" :=
  ⟨⟨by decide, by decide⟩,
   (C3_amended "https://youtu.be/dQw4w9WgXcQ".data "dQw4w9WgXcQ".data "both" false 0 0 "e"
     (by decide) (by decide)).2.1⟩

/-- Claim C4 (confirmed): inputs matching none of the recognition patterns
make the resolver report failure: the empty string, every string of length 10
(no marker-plus-token nor an 11-character bare token fits in 10 characters),
and a watch URL that carries no identifier all resolve to None, in both
src/index.py and src/api/index_simple.py. -/
theorem C4_thm (s : List Char) (h : s.length = 10) :
    Index.extract_video_id "".data = none
  ∧ ApiIndexSimple.extract_video_id "".data = none
  ∧ Index.extract_video_id s = none
  ∧ ApiIndexSimple.extract_video_id s = none
  ∧ Index.extract_video_id "https://www.youtube.com/watch?v=".data = none
  ∧ ApiIndexSimple.extract_video_id "https://www.youtube.com/watch?v=".data = none :=
  ⟨by decide, by decide, index_extract_len10 s h, simple_extract_len10 s h,
   by decide, by decide⟩

/-- Claim C4, witness: the theorem applied to the 10-character token
0123456789. -/
theorem C4_witness :
    "0123456789".data.length = 10 ∧ Index.extract_video_id "0123456789".data = none :=
  ⟨by decide, (C4_thm "0123456789".data (by decide)).2.2.1⟩

/-- Claim C5 (confirmed): on the /api/yt handler of src/index.py with
download=true, when the type parameter selects exactly one link kind and the
matching stream exists, the handler returns a redirect to that stream's URL;
when type is both, the result is never a redirect, whatever streams exist. -/
theorem C5_thm (url vid : List Char) (type : String) (start now : ℚ)
    (meta : Index.YtMeta) (v a : Index.StreamAttrs) (vo ao : Option Index.StreamAttrs)
    (allS : List Index.StreamAttrs)
    (h : Index.extract_video_id url = some vid) :
    (pyLower type = "video" →
      Index.download_youtube url type true start now
        (Index.PytubeOutcome.ok meta (some v) ao allS) = Index.DlResult.redirect v.url)
  ∧ (pyLower type = "audio" →
      Index.download_youtube url type true start now
        (Index.PytubeOutcome.ok meta vo (some a) allS) = Index.DlResult.redirect a.url)
  ∧ (pyLower type = "both" →
      (Index.download_youtube url type true start now
        (Index.PytubeOutcome.ok meta vo ao allS)).isRedirect = false) := by
  refine ⟨fun ht => ?_, fun ht => ?_, fun ht => ?_⟩
  · simp [Index.download_youtube, h, ht]
  · simp [Index.download_youtube, h, ht]
  · cases vo <;> cases ao <;>
      simp [Index.download_youtube, h, ht, Index.DlResult.isRedirect]

/-- Claim C5, witness: the theorem applied with type video and a concrete
progressive stream. -/
theorem C5_witness :
    Index.extract_video_id "dQw4w9WgXcQ".data = some "dQw4w9WgXcQ".data
  ∧ (pyLower "video" = "video" →
      Index.download_youtube "dQw4w9WgXcQ".data "video" true 0 0
        (Index.PytubeOutcome.ok
          (Index.YtMeta.mk "T" "th" 125 "A" 7 none [] "d")
          (some (Index.StreamAttrs.mk "http://cdn.example/v.mp4" (some "720p")
            (some 1048576) "video/mp4" true true true (some 30) none none 22))
          none []) =
        Index.DlResult.redirect "http://cdn.example/v.mp4") :=
  ⟨by decide,
   (C5_thm "dQw4w9WgXcQ".data "dQw4w9WgXcQ".data "video" 0 0
     (Index.YtMeta.mk "T" "th" 125 "A" 7 none [] "d")
     (Index.StreamAttrs.mk "http://cdn.example/v.mp4" (some "720p")
       (some 1048576) "video/mp4" true true true (some 30) none none 22)
     (Index.StreamAttrs.mk "http://cdn.example/v.mp4" (some "720p")
       (some 1048576) "video/mp4" true true true (some 30) none none 22)
     none none [] (by decide)).1⟩

/-- Claim C6 (confirmed): for a known nonzero filesize of n bytes the
reported filesize_mb equals n / 1048576 rounded to 2 decimal places (the
code's 1024 * 1024 denominator equals the claimed 1,048,576; a filesize of
exactly 1,048,576 bytes reports as 1.0); a filesize of 0 or an unknown
filesize reports as null. -/
theorem C6_thm (n : Nat) (hn : n ≠ 0) :
    filesize_mb none = none
  ∧ filesize_mb (some 0) = none
  ∧ filesize_mb (some n) = some (roundTo 2 ((n : ℚ) / 1048576))
  ∧ filesize_mb (some 1048576) = some 1 := by
  refine ⟨rfl, by simp [filesize_mb], ?_, ?_⟩
  · norm_num [filesize_mb, hn]
  · norm_num [filesize_mb, roundTo, roundHalfEven]

/-- Claim C6, witness: the theorem applied at 2500000 bytes. -/
theorem C6_witness :
    (2500000 : Nat) ≠ 0
  ∧ filesize_mb (some 2500000) = some (roundTo 2 ((2500000 : ℚ) / 1048576)) :=
  ⟨by decide, (C6_thm 2500000 (by decide)).2.2.1⟩

/-- Claim C7 (confirmed): for every duration n in seconds the
duration_formatted field is the whole minutes, a colon, and the remaining
seconds zero-padded to width 2; 125 seconds formats as 2:05 and 59 seconds
as 0:59. -/
theorem C7_thm (n : Nat) :
    duration_formatted n = toString (n / 60) ++ ":" ++ zeroPad2 (n % 60)
  ∧ duration_formatted 125 = "2:05"
  ∧ duration_formatted 59 = "0:59" := by
  refine ⟨?_, by decide, by decide⟩
  have h : ∀ k < 60, pyFormat02 k = zeroPad2 k := by decide
  rw [duration_formatted, h (n % 60) (Nat.mod_lt n (by omega))]

/-- Claim C8, counterexample: the claim asserts every successful JSON
response includes the fixed attribution fields, but the successful /api/info
response of src/index.py (lines 248-269) carries no api_dev or api_channel
field at all, while it does carry success and time_s fields. -/
theorem C8_counterexample :
    (Index.video_info "dQw4w9WgXcQ".data 0 1
      (Except.ok (Index.InfoMeta.mk "T" 125 "A" "cu" 7 none "d" [] "th" false []))).isJson = true
  ∧ (Index.video_info "dQw4w9WgXcQ".data 0 1
      (Except.ok (Index.InfoMeta.mk "T" 125 "A" "cu" 7 none "d" [] "th" false []))).field
      "success" = some (JVal.jbool true)
  ∧ (Index.video_info "dQw4w9WgXcQ".data 0 1
      (Except.ok (Index.InfoMeta.mk "T" 125 "A" "cu" 7 none "d" [] "th" false []))).field
      "api_dev" = none
  ∧ (Index.video_info "dQw4w9WgXcQ".data 0 1
      (Except.ok (Index.InfoMeta.mk "T" 125 "A" "cu" 7 none "d" [] "th" false []))).field
      "api_channel" = none :=
  ⟨rfl, rfl, rfl, rfl⟩

/-- Claim C8 (amended): the /api/yt handler of src/index.py includes the
fixed attribution fields and a time_s field equal to the round-to-4-places
wall-clock delta between its two time.time() samples; the /api/info handler
includes such a time_s field but no attribution fields; the handler of
src/api/index_simple.py includes its own fixed attribution fields but a
hardcoded time_s of 1.5 that measures nothing. -/
theorem C8_amended (url vid : List Char) (type : String) (start now : ℚ)
    (meta : Index.YtMeta) (vo ao : Option Index.StreamAttrs)
    (allS : List Index.StreamAttrs) (im : Index.InfoMeta)
    (h : Index.extract_video_id url = some vid)
    (hs : ApiIndexSimple.extract_video_id url = some vid) :
    ((Index.download_youtube url type false start now
        (Index.PytubeOutcome.ok meta vo ao allS)).field "api_dev" =
       some (JVal.jstr "@YourName")
   ∧ (Index.download_youtube url type false start now
        (Index.PytubeOutcome.ok meta vo ao allS)).field "api_channel" =
       some (JVal.jstr "@YourChannel")
   ∧ (Index.download_youtube url type false start now
        (Index.PytubeOutcome.ok meta vo ao allS)).field "time_s" =
       some (JVal.jnum (roundTo 4 (now - start))))
  ∧ ((Index.video_info url start now (Except.ok im)).field "time_s" =
       some (JVal.jnum (roundTo 4 (now - start)))
   ∧ (Index.video_info url start now (Except.ok im)).field "api_dev" = none)
  ∧ ((ApiIndexSimple.yt_download url).2.lookup "time_s" = some (JVal.jnum (3/2))
   ∧ (ApiIndexSimple.yt_download url).2.lookup "api_dev" =
       some (JVal.jstr "@masumvai")) := by
  refine ⟨⟨?_, ?_, ?_⟩, ⟨?_, ?_⟩, ⟨?_, ?_⟩⟩
  · cases hv : (pyLower type == "video" || pyLower type == "both") <;>
      cases had : (pyLower type == "audio" || pyLower type == "both") <;>
      cases vo <;> cases ao <;>
      simp [Index.download_youtube, h, hv, had, Index.baseResponse,
        Index.DlResult.field, List.lookup]
  · cases hv : (pyLower type == "video" || pyLower type == "both") <;>
      cases had : (pyLower type == "audio" || pyLower type == "both") <;>
      cases vo <;> cases ao <;>
      simp [Index.download_youtube, h, hv, had, Index.baseResponse,
        Index.DlResult.field, List.lookup]
  · cases hv : (pyLower type == "video" || pyLower type == "both") <;>
      cases had : (pyLower type == "audio" || pyLower type == "both") <;>
      cases vo <;> cases ao <;>
      simp [Index.download_youtube, h, hv, had, Index.baseResponse,
        Index.DlResult.field, List.lookup]
  · simp [Index.video_info, h, Index.DlResult.field, List.lookup]
  · simp [Index.video_info, h, Index.DlResult.field, List.lookup]
  · simp [ApiIndexSimple.yt_download, hs, List.lookup]
  · simp [ApiIndexSimple.yt_download, hs, List.lookup]

/-- Claim C8, witness: the amended theorem applied to a youtu.be URL with
concrete clock samples 0 and 1. -/
theorem C8_witness :
    (Index.extract_video_id "https://youtu.be/dQw4w9WgXcQ".data = some "dQw4w9WgXcQ".data
   ∧ ApiIndexSimple.extract_video_id "https://youtu.be/dQw4w9WgXcQ".data =
       some "dQw4w9WgXcQ".data)
  ∧ (Index.download_youtube "https://youtu.be/dQw4w9WgXcQ".data "both" false 0 1
      (Index.PytubeOutcome.ok (Index.YtMeta.mk "T" "th" 125 "A" 7 none [] "d")
        none none [])).field "api_dev" = some (JVal.jstr "@YourName") :=
  ⟨⟨by decide, by decide⟩,
   (C8_amended "https://youtu.be/dQw4w9WgXcQ".data "dQw4w9WgXcQ".data "both" 0 1
     (Index.YtMeta.mk "T" "th" 125 "A" 7 none [] "d") none none []
     (Index.InfoMeta.mk "T" 125 "A" "cu" 7 none "d" [] "th" false [])
     (by decide) (by decide)).1.1⟩

/-- Claim C9 (confirmed): resolution is idempotent on successful outputs —
whenever extract_video_id (src/index.py or src/api/yt.py) succeeds with
token t, applying it to t itself succeeds and returns t unchanged. -/
theorem C9_thm (url t : List Char) :
    (Index.extract_video_id url = some t → Index.extract_video_id t = some t)
  ∧ (ApiYt.extract_video_id url = some t → ApiYt.extract_video_id t = some t) := by
  constructor
  · intro h
    obtain ⟨h11, ha⟩ := index_extract_some_props h
    exact index_bare_form t h11 ha
  · intro h
    obtain ⟨h11, ha⟩ := yt_extract_some_props h
    exact yt_bare_form t h11 ha

/-- Claim C9, witness: the theorem applied to a youtu.be URL whose
resolution yields dQw4w9WgXcQ. -/
theorem C9_witness :
    Index.extract_video_id "https://youtu.be/dQw4w9WgXcQ".data = some "dQw4w9WgXcQ".data
  ∧ Index.extract_video_id "dQw4w9WgXcQ".data = some "dQw4w9WgXcQ".data :=
  ⟨by decide,
   (C9_thm "https://youtu.be/dQw4w9WgXcQ".data "dQw4w9WgXcQ".data).1 (by decide)⟩

/-- Claim C10 (confirmed): when the token following a recognized marker is
longer than 11 characters and its first 11 characters are identifier
characters, the resolvers do not fail: they return exactly the first 11
characters, silently truncating the remainder (shown for the youtu.be and
watch?v= forms across the three resolvers). -/
theorem C10_thm (u : List Char) (hlen : 11 < u.length)
    (hid : (u.take 11).all isIdChar = true) :
    Index.extract_video_id ("https://youtu.be/".data ++ u) = some (u.take 11)
  ∧ Index.extract_video_id ("https://www.youtube.com/watch?v=".data ++ u) = some (u.take 11)
  ∧ ApiIndexSimple.extract_video_id ("https://www.youtube.com/watch?v=".data ++ u) =
      some (u.take 11)
  ∧ ApiYt.extract_video_id ("https://youtu.be/".data ++ u) = some (u.take 11) := by
  have h11 : (u.take 11).length = 11 := by rw [List.length_take]; omega
  have hu : u.take 11 ++ u.drop 11 = u := List.take_append_drop 11 u
  refine ⟨?_, ?_, ?_, ?_⟩
  · have := index_youtuBe_form (u.take 11) (u.drop 11) h11 hid
    rwa [hu] at this
  · have := index_watch_form (u.take 11) (u.drop 11) h11 hid
    rwa [hu] at this
  · have := simple_watch_form (u.take 11) (u.drop 11) h11 hid
    rwa [hu] at this
  · have := yt_youtuBe_form (u.take 11) (u.drop 11) h11 hid
    rwa [hu] at this

/-- Claim C10, witness: the theorem applied to the over-long token
dQw4w9WgXcQextras, of which the first 11 characters are returned. -/
theorem C10_witness :
    (11 < "dQw4w9WgXcQextras".data.length
   ∧ ("dQw4w9WgXcQextras".data.take 11).all isIdChar = true)
  ∧ Index.extract_video_id ("https://youtu.be/".data ++ "dQw4w9WgXcQextras".data) =
      some ("dQw4w9WgXcQextras".data.take 11) :=
  ⟨⟨by decide, by decide⟩,
   (C10_thm "dQw4w9WgXcQextras".data (by decide) (by decide)).1⟩
